import Mathlib

/-!
Verification of the surface-building library (surfel sampling, surface
builder, spatial-index construction).

The embedding translates the three source modules (`surfel.rs`,
`builder.rs`, `lib.rs`) into Lean. Floating-point scalars are modelled as
either an exact finite value (a rational) or one of the non-finite IEEE
values NaN / +∞ / −∞; the only arithmetic the library itself performs on
scalars is the lossless `f32 → f64` widening cast, so this level of detail
is faithful. The two external collaborators are modelled at their
interface boundary:

* the Poisson-disk sampler (`into_poisson_disk_set` of the sampling crate)
  is an opaque function parameter producing a list of vertices, so every
  theorem holds for every possible sampler behaviour;
* the k-d tree (`nearest_kdtree` crate) is an insertion log whose `add`
  rejects a point of the wrong dimension or with a non-finite coordinate,
  mirroring the crate's `check_point` guard.

Rust panics (`unimplemented!`, `.unwrap()`) are modelled as `Except`
failures: the caller observes an explicit failure result and no partially
constructed value is ever returned.
-/

/-- Model of an IEEE floating-point scalar at the level of detail the
library needs: an exact finite value represented as a rational, or one of
the non-finite values NaN, +∞, −∞. -/
inductive Fl where
  | fin (q : ℚ)
  | nan
  | inf
  | neginf
deriving DecidableEq, Repr

/-- `is_finite` of the Rust float types: true exactly on finite values. -/
def Fl.isFinite : Fl → Bool
  | .fin _ => true
  | _ => false

/-- The exact rational value of a finite float, `none` for NaN and the
infinities. -/
def Fl.toRat? : Fl → Option ℚ
  | .fin q => some q
  | _ => none

/-- The `as f64` widening cast of the source. `f32 → f64` is exact on
every value (finite values are preserved bit-for-bit in value, NaN stays
NaN, infinities stay infinities), so in this model it is the identity. -/
def Fl.toF64 (x : Fl) : Fl := x

/-- Three-component vector of the geometry crate (`Vec3`), as consumed by
this library: a triple of float scalars. -/
structure Vec3 where
  x : Fl
  y : Fl
  z : Fl
deriving DecidableEq, Repr

/-- Two-component vector of the geometry crate (`Vec2`), used for texture
coordinates. -/
structure Vec2 where
  x : Fl
  y : Fl
deriving DecidableEq, Repr

/-- The positional capability interface (`geom::Position`): any
vertex-like type exposing a 3D position. -/
class Position (α : Type) where
  position : α → Vec3

/-- The normal capability interface (the source's `geom::Normal` trait;
named `HasNormal` here because `Normal` is taken by the ambient
library). -/
class HasNormal (α : Type) where
  normal : α → Vec3

/-- The texture-coordinate capability interface (`geom::Texcoords`). -/
class Texcoords (α : Type) where
  texcoords : α → Vec2

/-- `Vec3` trivially implements `Position` (noted in the source's doc
comment for `add_samples`): its position is itself. -/
instance : Position Vec3 where
  position v := v

/-- `Surfel<V, D>` of `surfel.rs`: an interpolated vertex at the surfel
position plus additional associated data. -/
structure Surfel (V : Type) (D : Type) where
  vertex : V
  data : D
deriving DecidableEq, Repr

/-- `Surfel::new` of `surfel.rs`. -/
def Surfel.new (vertex : V) (data : D) : Surfel V D :=
  { vertex := vertex, data := data }

/-- Writing a new payload value through the mutable accessor
`Surfel::data_mut` of `surfel.rs`, modelled as a functional update of the
`data` field (the vertex is untouched). -/
def Surfel.writeData (s : Surfel V D) (d : D) : Surfel V D :=
  { s with data := d }

/-- `impl Position for Surfel` of `surfel.rs`: the position is
`vertex.position()`. -/
instance [Position V] : Position (Surfel V D) where
  position s := Position.position s.vertex

/-- `impl Normal for Surfel` of `surfel.rs`: passes through to the
vertex. -/
instance [HasNormal V] : HasNormal (Surfel V D) where
  normal s := HasNormal.normal s.vertex

/-- `impl Texcoords for Surfel` of `surfel.rs`: passes through to the
vertex. -/
instance [Texcoords V] : Texcoords (Surfel V D) where
  texcoords s := Texcoords.texcoords s.vertex

/-- `SurfelSampling` of `builder.rs`: the two sampling strategies. -/
inductive SurfelSampling where
  | PerSqrUnit (density : Fl)
  | MinimumDistance (min_dist : Fl)
deriving DecidableEq, Repr

/-- The exact value of the `f32` literal `0.1` appearing in
`SurfaceBuilder::new` (`0.1f32` rounds to `13421773 × 2⁻²⁷`). -/
def defaultMinDist : ℚ := 13421773 / 134217728

/-- `SurfaceBuilder` of `builder.rs`: the growable sample accumulation
plus the current sampling strategy. -/
structure SurfaceBuilder (S : Type) where
  samples : List S
  sampling : SurfelSampling
deriving DecidableEq

/-- `SurfaceBuilder::new` of `builder.rs`: empty accumulation, default
strategy `MinimumDistance(0.1)`. -/
def SurfaceBuilder.new : SurfaceBuilder S :=
  { samples := [], sampling := .MinimumDistance (.fin defaultMinDist) }

/-- The `sampling` method of `builder.rs` (named `setSampling` here
because the structure field projection already carries the source name):
replaces the active strategy and returns the builder. -/
def SurfaceBuilder.setSampling (b : SurfaceBuilder S) (sampling : SurfelSampling) :
    SurfaceBuilder S :=
  { b with sampling := sampling }

/-- `SurfaceBuilder::add_samples` of `builder.rs`: appends the supplied
samples, in iteration order, to the accumulation sequence. -/
def SurfaceBuilder.add_samples (b : SurfaceBuilder S) (samples : List S) :
    SurfaceBuilder S :=
  { b with samples := b.samples ++ samples }

/-- Failure of `SurfaceBuilder::sample_triangles`: the
`unimplemented!` panic for the `PerSqrUnit` strategy, surfaced as an
explicit failure result in this model. -/
inductive SamplingError where
  | NotImplemented
deriving DecidableEq, Repr

/-- `SurfaceBuilder::sample_triangles` of `builder.rs`. The external
Poisson-disk sampler `into_poisson_disk_set` is passed as the opaque
function `sampler` (the theorems therefore hold for every sampler
behaviour). Under `MinimumDistance(min_dist)` every vertex the sampler
returns is wrapped as a Surfel with a clone of `prototype_surfel_data`
(value copy in this model) and appended; any other strategy hits the
`unimplemented!` branch, modelled as an explicit `NotImplemented`
failure. -/
def SurfaceBuilder.sample_triangles [Position V]
    (sampler : List T → Fl → List V)
    (b : SurfaceBuilder (Surfel V D)) (triangles : List T)
    (prototype_surfel_data : D) :
    Except SamplingError (SurfaceBuilder (Surfel V D)) :=
  match b.sampling with
  | .MinimumDistance min_dist =>
      .ok { b with
            samples := b.samples ++
              (sampler triangles min_dist).map
                (fun v => Surfel.new v prototype_surfel_data) }
  | .PerSqrUnit _ => .error .NotImplemented

/-- `ErrorKind` of the external k-d tree crate: why an insertion is
rejected. -/
inductive KdError where
  | WrongDimension
  | NonFiniteCoordinate
deriving DecidableEq, Repr

/-- The external k-d tree, modelled at its interface boundary as an
insertion log: the configured dimensionality plus the accepted
`(coordinates, payload)` entries in insertion order. -/
structure KdTree where
  dimensions : Nat
  entries : List (List Fl × Nat)
deriving DecidableEq, Repr

/-- `KdTree::new(dims)` of the external crate: an empty tree for the given
dimensionality. -/
def KdTree.new (dimensions : Nat) : KdTree :=
  { dimensions := dimensions, entries := [] }

/-- The `check_point` guard of the external k-d tree crate: a point is
rejected when its dimension differs from the tree's, or when any
coordinate is non-finite. -/
def KdTree.checkPoint (t : KdTree) (point : List Fl) : Except KdError Unit :=
  if point.length ≠ t.dimensions then .error .WrongDimension
  else if point.any (fun c => !c.isFinite) then .error .NonFiniteCoordinate
  else .ok ()

/-- `KdTree::add` of the external crate: validates the point and, on
success, records the `(coordinates, payload)` entry. -/
def KdTree.add (t : KdTree) (point : List Fl) (data : Nat) :
    Except KdError KdTree :=
  match t.checkPoint point with
  | .error e => .error e
  | .ok _ => .ok { t with entries := t.entries ++ [(point, data)] }

/-- The coordinate triple `[s.x as f64, s.y as f64, s.z as f64]` that
`SurfaceBuilder::build` passes to `KdTree::add` for a sample position. -/
def posPoint (p : Vec3) : List Fl :=
  [p.x.toF64, p.y.toF64, p.z.toF64]

/-- The insertion loop of `SurfaceBuilder::build`:
`samples.iter().map(position).enumerate().for_each(|(idx, s)| tree.add(..., idx).unwrap())`.
The running index plays the role of `enumerate`, and the `.unwrap()` panic
on a rejected insertion is modelled as propagating the failure. -/
def insertAll (t : KdTree) (idx : Nat) : List Vec3 → Except KdError KdTree
  | [] => .ok t
  | p :: ps =>
      match t.add (posPoint p) idx with
      | .error e => .error e
      | .ok t2 => insertAll t2 (idx + 1) ps

/-- `Surface<S>` (declared in `lib.rs`, constructed in
`SurfaceBuilder::build`): the ordered sample sequence plus the spatial
index built over the sample positions. -/
structure Surface (S : Type) where
  samples : List S
  spatial_idx : KdTree
deriving DecidableEq

/-- `SurfaceBuilder::build` of `builder.rs`: constructs a fresh
3-dimensional k-d tree, inserts every sample's position keyed by its
zero-based index in sequence order, and returns the Surface owning the
samples and the index. A rejected insertion (the `.unwrap()` panic in the
source) is an explicit failure result here, and no Surface is produced. -/
def SurfaceBuilder.build [Position S] (b : SurfaceBuilder S) :
    Except KdError (Surface S) :=
  match insertAll (KdTree.new 3) 0 (b.samples.map Position.position) with
  | .error e => .error e
  | .ok tree => .ok { samples := b.samples, spatial_idx := tree }

/-- The entries that a run of the insertion loop starting at index `idx`
is expected to record: one entry per position, coordinates converted to
double precision, payload equal to the running index, in sequence
order. -/
def expectedEntries (idx : Nat) : List Vec3 → List (List Fl × Nat)
  | [] => []
  | p :: ps => (posPoint p, idx) :: expectedEntries (idx + 1) ps

/-- Squared Euclidean distance between two positions, defined when all six
coordinates are finite. -/
def Vec3.dist2 (p q : Vec3) : Option ℚ :=
  match p.x.toRat?, p.y.toRat?, p.z.toRat?, q.x.toRat?, q.y.toRat?, q.z.toRat? with
  | some px, some py, some pz, some qx, some qy, some qz =>
      some ((px - qx) * (px - qx) + (py - qy) * (py - qy) + (pz - qz) * (pz - qz))
  | _, _, _, _, _, _ => none

/-- Two positions are at Euclidean distance at least `r`: both are finite
and the squared distance is at least `r²` (for `r > 0` this is exactly
`dist ≥ r`, stated squared to stay inside the rationals). -/
def farApart (r : ℚ) (p q : Vec3) : Bool :=
  match p.dist2 q with
  | some s => decide (r * r ≤ s)
  | none => false

/-- Every two distinct positions of the list are at Euclidean distance at
least `r`. -/
def PairwiseFar (r : ℚ) (l : List Vec3) : Prop :=
  ∀ i j : Fin l.length, i ≠ j → farApart r (l.get i) (l.get j) = true

instance (r : ℚ) (l : List Vec3) : Decidable (PairwiseFar r l) := by
  unfold PairwiseFar
  exact inferInstance

/-- In-place mutation of the payload of the sample at position `k` of a
sample sequence through `Surfel::data_mut` (no-op when `k` is out of
range). -/
def mutateAt (l : List (Surfel V D)) (k : Nat) (d : D) : List (Surfel V D) :=
  match l[k]? with
  | some s => l.set k (s.writeData d)
  | none => l

/-! ### Concrete values used by the witnesses -/

/-- A finite sample position at the origin. -/
def p0 : Vec3 := ⟨.fin 0, .fin 0, .fin 0⟩

/-- A finite sample position at distance 5 from the origin. -/
def p1 : Vec3 := ⟨.fin 5, .fin 0, .fin 0⟩

/-- A position with a NaN coordinate (rejected by the index's point
check). -/
def pNaN : Vec3 := ⟨.nan, .fin 0, .fin 0⟩

/-- A two-sample builder over bare positions. -/
def demoBuilder : SurfaceBuilder Vec3 :=
  { samples := [p0, p1], sampling := .MinimumDistance (.fin 1) }

/-- The surface `demoBuilder.build` produces. -/
def demoSurface : Surface Vec3 :=
  { samples := [p0, p1],
    spatial_idx := { dimensions := 3, entries := [(posPoint p0, 0), (posPoint p1, 1)] } }

/-- A builder holding a sample whose position has a NaN coordinate. -/
def demoBuilderNaN : SurfaceBuilder Vec3 :=
  { samples := [p0, pNaN], sampling := .MinimumDistance (.fin 1) }

/-- A sampler (standing in for the external Poisson-disk collaborator)
that returns the two far-apart vertices `p0`, `p1`. -/
def demoSampler : List Unit → Fl → List Vec3 := fun _ _ => [p0, p1]

/-- A surfel wrapping `p0` with payload 7. -/
def demoSurfel : Surfel Vec3 Int := Surfel.new p0 7

/-- A builder under the `MinimumDistance(1)` strategy that already holds
one accumulated surfel. -/
def demoBuilderMD : SurfaceBuilder (Surfel Vec3 Int) :=
  { samples := [demoSurfel], sampling := .MinimumDistance (.fin 1) }

/-- A builder under the (unimplemented) `PerSqrUnit(1)` strategy. -/
def demoBuilderPSU : SurfaceBuilder (Surfel Vec3 Int) :=
  { samples := [], sampling := .PerSqrUnit (.fin 1) }

/-- The builder state produced by sampling the two demo points on a fresh
builder with prototype payload 7. -/
def demoSampled : SurfaceBuilder (Surfel Vec3 Int) :=
  { samples := [Surfel.new p0 7, Surfel.new p1 7],
    sampling := .MinimumDistance (.fin defaultMinDist) }

/-- The builder state produced by sampling the two demo points on top of
`demoBuilderMD`'s already-accumulated surfel. -/
def demoSampledMD : SurfaceBuilder (Surfel Vec3 Int) :=
  { samples := [demoSurfel, Surfel.new p0 7, Surfel.new p1 7],
    sampling := .MinimumDistance (.fin 1) }


/-! ### Helper lemmas about the external index model and the insertion loop -/

/-- The pass-through of `Surfel`'s `Position` implementation, as an
equation. -/
theorem Surfel.position_eq [Position V] (s : Surfel V D) :
    Position.position s = Position.position s.vertex := rfl

/-- `check_point` inspects only the configured dimensionality, never the
entries, so any 3-dimensional tree checks a point exactly as a fresh
3-dimensional tree does. -/
theorem KdTree.checkPoint_eq_of_dim (t : KdTree) (h : t.dimensions = 3)
    (pt : List Fl) : t.checkPoint pt = (KdTree.new 3).checkPoint pt := by
  simp [KdTree.checkPoint, KdTree.new, h]

/-- A successful `add` appends exactly one entry and keeps the
dimensionality. -/
theorem KdTree.add_ok (t : KdTree) (pt : List Fl) (d : Nat) (t2 : KdTree)
    (h : t.add pt d = .ok t2) :
    t2 = { t with entries := t.entries ++ [(pt, d)] } := by
  unfold KdTree.add at h
  cases hc : t.checkPoint pt <;> rw [hc] at h <;> simp_all

/-- A rejected point makes `add` fail with the rejection's error. -/
theorem KdTree.add_error (t : KdTree) (pt : List Fl) (d : Nat) (e : KdError)
    (h : t.checkPoint pt = .error e) : t.add pt d = .error e := by
  unfold KdTree.add
  rw [h]

/-- A successful run of the insertion loop appends exactly the expected
entries, in order, and keeps the dimensionality. -/
theorem insertAll_ok (ps : List Vec3) : ∀ (t : KdTree) (idx : Nat) (t' : KdTree),
    insertAll t idx ps = .ok t' →
    t'.entries = t.entries ++ expectedEntries idx ps ∧
    t'.dimensions = t.dimensions := by
  induction ps with
  | nil =>
      intro t idx t' h
      unfold insertAll at h
      cases h
      simp [expectedEntries]
  | cons p ps ih =>
      intro t idx t' h
      unfold insertAll at h
      cases hadd : t.add (posPoint p) idx with
      | error e => rw [hadd] at h; cases h
      | ok t2 =>
          rw [hadd] at h
          obtain ⟨h1, h2⟩ := ih t2 (idx + 1) t' h
          have ht2 := KdTree.add_ok t _ _ t2 hadd
          subst ht2
          simp at h1 h2
          simp [expectedEntries, h1, h2]

/-- If any position of the list is rejected by a 3-dimensional tree's
point check, the insertion loop fails. -/
theorem insertAll_reject (ps : List Vec3) : ∀ (t : KdTree) (idx : Nat),
    t.dimensions = 3 →
    (∃ p ∈ ps, ∃ e, (KdTree.new 3).checkPoint (posPoint p) = .error e) →
    ∃ e, insertAll t idx ps = .error e := by
  induction ps with
  | nil =>
      intro t idx _ h
      obtain ⟨p, hp, _⟩ := h
      cases hp
  | cons p ps ih =>
      intro t idx hdim h
      obtain ⟨q, hq, e, he⟩ := h
      rcases List.mem_cons.mp hq with hqp | hqs
      · subst hqp
        refine ⟨e, ?_⟩
        unfold insertAll
        rw [KdTree.add_error t _ idx e (by rw [KdTree.checkPoint_eq_of_dim t hdim]; exact he)]
      · cases hadd : t.add (posPoint p) idx with
        | error e2 =>
            refine ⟨e2, ?_⟩
            unfold insertAll
            rw [hadd]
        | ok t2 =>
            have ht2 := KdTree.add_ok t _ _ t2 hadd
            have hdim2 : t2.dimensions = 3 := by rw [ht2]; exact hdim
            obtain ⟨e3, he3⟩ := ih t2 (idx + 1) hdim2 ⟨q, hqs, e, he⟩
            refine ⟨e3, ?_⟩
            unfold insertAll
            rw [hadd]
            exact he3

/-- A successful `build` keeps the accumulated samples unchanged. -/
theorem build_ok_samples [Position S] (b : SurfaceBuilder S) (s : Surface S)
    (h : b.build = .ok s) : s.samples = b.samples := by
  unfold SurfaceBuilder.build at h
  cases hins : insertAll (KdTree.new 3) 0 (b.samples.map Position.position) <;>
    rw [hins] at h <;> cases h
  rfl

/-- A successful `build` produces exactly the expected index entries. -/
theorem build_ok_entries [Position S] (b : SurfaceBuilder S) (s : Surface S)
    (h : b.build = .ok s) :
    s.spatial_idx.entries = expectedEntries 0 (b.samples.map Position.position) := by
  unfold SurfaceBuilder.build at h
  cases hins : insertAll (KdTree.new 3) 0 (b.samples.map Position.position) <;>
    rw [hins] at h <;> cases h
  obtain ⟨h1, _⟩ := insertAll_ok _ _ _ _ hins
  simpa [KdTree.new] using h1

/-- Entry `i` of an expected-entry run starting at `idx` carries the
coordinates of position `i` and payload `idx + i`. -/
theorem expectedEntries_getElem? (ps : List Vec3) : ∀ (idx i : Nat),
    (expectedEntries idx ps)[i]? = ps[i]?.map (fun p => (posPoint p, idx + i)) := by
  induction ps with
  | nil => intro idx i; simp [expectedEntries]
  | cons p ps ih =>
      intro idx i
      cases i with
      | zero => simp [expectedEntries]
      | succ n =>
          have harith : idx + 1 + n = idx + (n + 1) := by omega
          simp only [expectedEntries, List.getElem?_cons_succ, ih (idx + 1) n, harith]

/-- Mutating the sample at `k` rewrites exactly entry `k` of the
sequence (to the written payload), when it exists. -/
theorem mutateAt_getElem?_self (l : List (Surfel V D)) (k : Nat) (d : D) :
    (mutateAt l k d)[k]? = l[k]?.map (fun s => s.writeData d) := by
  unfold mutateAt
  cases h : l[k]? with
  | none => simp [h]
  | some s =>
      have hk : k < l.length := by
        rw [List.getElem?_eq_some_iff] at h
        exact h.1
      simp [h, List.getElem?_set_self hk]

/-- Mutating the sample at `k` leaves every other entry of the sequence
untouched. -/
theorem mutateAt_getElem?_ne (l : List (Surfel V D)) (k j : Nat) (d : D)
    (h : j ≠ k) : (mutateAt l k d)[j]? = l[j]? := by
  unfold mutateAt
  cases hk : l[k]? with
  | none => rfl
  | some s => simp [List.getElem?_set_ne (Ne.symm h)]

/-- Every sample produced by `sample_triangles` on a fresh builder carries
(a copy of) the prototype payload. -/
theorem sample_triangles_data_eq_proto [Position V]
    (sampler : List T → Fl → List V) (ts : List T) (proto : D)
    (b2 : SurfaceBuilder (Surfel V D))
    (hok : SurfaceBuilder.sample_triangles sampler SurfaceBuilder.new ts proto =
      Except.ok b2) :
    ∀ s ∈ b2.samples, s.data = proto := by
  have hok2 : Except.ok
      (⟨(sampler ts (Fl.fin defaultMinDist)).map
          (fun v => Surfel.new v proto), .MinimumDistance (.fin defaultMinDist)⟩ :
        SurfaceBuilder (Surfel V D)) = Except.ok b2 := hok
  injection hok2 with hok3
  intro s hs
  rw [← hok3] at hs
  simp only at hs
  obtain ⟨v, _, hv⟩ := List.mem_map.mp hs
  rw [← hv]
  rfl

/-! ### The claims -/

/-- C10: `build()` on a freshly created builder with no samples added
succeeds (it never reaches the index-insertion error branch) and returns a
Surface whose sample sequence is empty and whose spatial index holds no
entries. -/
theorem build_of_fresh_builder_is_empty_surface (S : Type) [Position S] :
    (SurfaceBuilder.new : SurfaceBuilder S).build =
      Except.ok { samples := ([] : List S),
                  spatial_idx := { dimensions := 3, entries := [] } } := rfl

/-- C8: `sampling(strategy)` returns a builder whose active strategy is
the given strategy and whose accumulated sample sequence is exactly the
sequence before the call. -/
theorem setSampling_replaces_strategy_and_keeps_samples
    (S : Type) (b : SurfaceBuilder S) (st : SurfelSampling) :
    (b.setSampling st).sampling = st ∧ (b.setSampling st).samples = b.samples :=
  ⟨rfl, rfl⟩

/-- C9: a Surfel's position is its wrapped vertex's position, and the
normal / texture-coordinate capabilities pass through to the wrapped
vertex unchanged when the vertex type exposes them. -/
theorem surfel_capabilities_pass_through_to_vertex
    (V D : Type) [Position V] [HasNormal V] [Texcoords V] (s : Surfel V D) :
    Position.position s = Position.position s.vertex ∧
    HasNormal.normal s = HasNormal.normal s.vertex ∧
    Texcoords.texcoords s = Texcoords.texcoords s.vertex :=
  ⟨rfl, rfl, rfl⟩

/-- C3: under the `PerSqrUnit` strategy, `sample_triangles` fails with the
`NotImplemented` condition as an explicit failure result (so no builder
state with appended samples is ever produced). -/
theorem sample_triangles_per_sqr_unit_not_implemented
    {V D T : Type} [Position V] (sampler : List T → Fl → List V)
    (b : SurfaceBuilder (Surfel V D)) (ts : List T) (proto : D) (density : Fl)
    (h : b.sampling = SurfelSampling.PerSqrUnit density) :
    SurfaceBuilder.sample_triangles sampler b ts proto =
      Except.error SamplingError.NotImplemented := by
  unfold SurfaceBuilder.sample_triangles
  rw [h]

/-- Witness for C3 at a concrete builder under `PerSqrUnit(1)`. -/
theorem sample_triangles_per_sqr_unit_not_implemented_witness :
    demoBuilderPSU.sampling = SurfelSampling.PerSqrUnit (Fl.fin 1) ∧
    SurfaceBuilder.sample_triangles demoSampler demoBuilderPSU [] (7 : Int) =
      Except.error SamplingError.NotImplemented :=
  ⟨rfl, sample_triangles_per_sqr_unit_not_implemented demoSampler demoBuilderPSU
    [] 7 (Fl.fin 1) rfl⟩

/-- C4: under `MinimumDistance(d)`, `sample_triangles` appends to the end
of the accumulation exactly one Surfel per point the external sampler
returns for the triangle stream, each pairing that point's vertex with a
copy of the prototype payload, in the sampler's output order, while the
previously accumulated samples (and the strategy) are unchanged. -/
theorem sample_triangles_min_distance_appends_wrapped_points
    {V D T : Type} [Position V] (sampler : List T → Fl → List V)
    (b : SurfaceBuilder (Surfel V D)) (ts : List T) (proto : D) (d : Fl)
    (h : b.sampling = SurfelSampling.MinimumDistance d) :
    SurfaceBuilder.sample_triangles sampler b ts proto =
      Except.ok { samples := b.samples ++
                    (sampler ts d).map (fun v => Surfel.new v proto),
                  sampling := b.sampling } := by
  unfold SurfaceBuilder.sample_triangles
  rw [h]

/-- Witness for C4 at a concrete builder, sampler and prototype. -/
theorem sample_triangles_min_distance_appends_wrapped_points_witness :
    demoBuilderMD.sampling = SurfelSampling.MinimumDistance (Fl.fin 1) ∧
    SurfaceBuilder.sample_triangles demoSampler demoBuilderMD [()] (7 : Int) =
      Except.ok { samples := demoBuilderMD.samples ++
                    (demoSampler [()] (Fl.fin 1)).map (fun v => Surfel.new v (7 : Int)),
                  sampling := demoBuilderMD.sampling } :=
  ⟨rfl, sample_triangles_min_distance_appends_wrapped_points demoSampler
    demoBuilderMD [()] 7 (Fl.fin 1) rfl⟩

/-- C1: whenever `build()` returns a Surface, its spatial index holds, for
every `i` below the sample count, exactly one entry inserted for `i`: the
log of insertions equals one entry per sample, in sequence order, whose
coordinate is `samples[i].position()` converted to a double-precision
3-tuple and whose payload is `i` (stated both as the full insertion log
and pointwise). -/
theorem build_index_lists_every_sample_in_order
    {S : Type} [Position S] (b : SurfaceBuilder S) (s : Surface S)
    (h : b.build = Except.ok s) :
    s.spatial_idx.entries = expectedEntries 0 (s.samples.map Position.position) ∧
    ∀ i : Nat, s.spatial_idx.entries[i]? =
      s.samples[i]?.map (fun smp => (posPoint (Position.position smp), i)) := by
  have hsmp := build_ok_samples b s h
  have hent := build_ok_entries b s h
  refine ⟨by rw [hent, hsmp], ?_⟩
  intro i
  rw [hent, expectedEntries_getElem? _ 0 i, hsmp, List.getElem?_map,
    Option.map_map]
  simp [Function.comp_def]

/-- Witness for C1 at a concrete two-sample builder. -/
theorem build_index_lists_every_sample_in_order_witness :
    demoBuilder.build = Except.ok demoSurface ∧
    demoSurface.spatial_idx.entries =
      expectedEntries 0 (demoSurface.samples.map Position.position) :=
  ⟨by rfl, (build_index_lists_every_sample_in_order demoBuilder demoSurface
    (by rfl)).1⟩

/-- C2: for any list of samples handed to `add_samples` on a fresh builder
(no triangle sampling), the Surface `build()` returns carries exactly that
list — same length, same elements, same order. -/
theorem add_samples_build_returns_samples_verbatim
    {S : Type} [Position S] (l : List S) (s : Surface S)
    (h : ((SurfaceBuilder.new : SurfaceBuilder S).add_samples l).build =
      Except.ok s) :
    s.samples = l := by
  have hsmp := build_ok_samples _ _ h
  simpa [SurfaceBuilder.add_samples, SurfaceBuilder.new] using hsmp

/-- Witness for C2 at a concrete two-element sample list. -/
theorem add_samples_build_returns_samples_verbatim_witness :
    ((SurfaceBuilder.new : SurfaceBuilder Vec3).add_samples [p0, p1]).build =
      Except.ok demoSurface ∧
    demoSurface.samples = [p0, p1] :=
  ⟨by rfl, add_samples_build_returns_samples_verbatim [p0, p1] demoSurface
    (by rfl)⟩

/-- C6: if the spatial-index structure rejects one of the position
insertions performed during `build()` (its point check fails on a
sample's converted position), then `build()` surfaces an explicit failure
result and never returns a Surface — in particular no Surface with a
partially constructed index. -/
theorem build_fails_outright_on_rejected_insertion
    {S : Type} [Position S] (b : SurfaceBuilder S)
    (h : ∃ smp ∈ b.samples, ∃ e,
      (KdTree.new 3).checkPoint (posPoint (Position.position smp)) =
        Except.error e) :
    (∃ e, b.build = Except.error e) ∧
    ∀ s : Surface S, b.build ≠ Except.ok s := by
  obtain ⟨smp, hmem, e, he⟩ := h
  obtain ⟨e2, he2⟩ := insertAll_reject (b.samples.map Position.position)
    (KdTree.new 3) 0 rfl
    ⟨Position.position smp, List.mem_map_of_mem _ hmem, e, he⟩
  constructor
  · refine ⟨e2, ?_⟩
    unfold SurfaceBuilder.build
    rw [he2]
  · intro s hcontra
    unfold SurfaceBuilder.build at hcontra
    rw [he2] at hcontra
    cases hcontra

/-- Witness for C6 at a builder holding a NaN-coordinate sample. -/
theorem build_fails_outright_on_rejected_insertion_witness :
    (∃ smp ∈ demoBuilderNaN.samples, ∃ e,
      (KdTree.new 3).checkPoint (posPoint (Position.position smp)) =
        Except.error e) ∧
    (∃ e, demoBuilderNaN.build = Except.error e) := by
  have hyp : ∃ smp ∈ demoBuilderNaN.samples, ∃ e,
      (KdTree.new 3).checkPoint (posPoint (Position.position smp)) =
        Except.error e :=
    ⟨pNaN, by decide, KdError.NonFiniteCoordinate, rfl⟩
  exact ⟨hyp, (build_fails_outright_on_rejected_insertion demoBuilderNaN hyp).1⟩

/-- Shared characterization of `sample_triangles` under the
`MinimumDistance` strategy, used by several claims below. -/
theorem sample_triangles_min_dist_eq {V D T : Type} [Position V]
    (sampler : List T → Fl → List V) (b : SurfaceBuilder (Surfel V D))
    (ts : List T) (proto : D) (d : Fl)
    (h : b.sampling = SurfelSampling.MinimumDistance d) :
    SurfaceBuilder.sample_triangles sampler b ts proto =
      Except.ok { samples := b.samples ++
                    (sampler ts d).map (fun v => Surfel.new v proto),
                  sampling := b.sampling } := by
  unfold SurfaceBuilder.sample_triangles
  rw [h]

/-- C7: among the samples `sample_triangles` produces from one prototype
payload, writing a new payload through sample `k`'s mutable accessor
changes only that sample's entry; every other sample is unchanged and its
payload still equals the prototype value it was cloned from — each sample
holds an independent copy of the prototype. -/
theorem sample_triangles_payloads_independently_mutable
    {V D T : Type} [Position V] (sampler : List T → Fl → List V)
    (ts : List T) (proto : D) (b2 : SurfaceBuilder (Surfel V D))
    (hok : SurfaceBuilder.sample_triangles sampler SurfaceBuilder.new ts proto =
      Except.ok b2) (k : Nat) (d : D) :
    (mutateAt b2.samples k d)[k]? =
      b2.samples[k]?.map (fun s => s.writeData d) ∧
    ∀ j : Fin b2.samples.length, (j : Nat) ≠ k →
      (mutateAt b2.samples k d)[(j : Nat)]? = b2.samples[(j : Nat)]? ∧
      (b2.samples.get j).data = proto := by
  refine ⟨mutateAt_getElem?_self _ _ _, ?_⟩
  intro j hj
  refine ⟨mutateAt_getElem?_ne _ _ _ _ hj, ?_⟩
  exact sample_triangles_data_eq_proto sampler ts proto b2 hok _
    (List.get_mem _ _ _)

/-- Witness for C7: mutating sample 0's payload leaves sample 1 exactly as
it was. -/
theorem sample_triangles_payloads_independently_mutable_witness :
    SurfaceBuilder.sample_triangles demoSampler SurfaceBuilder.new [()]
      (7 : Int) = Except.ok demoSampled ∧
    (mutateAt demoSampled.samples 0 99)[(1 : Nat)]? =
      demoSampled.samples[(1 : Nat)]? :=
  ⟨by rfl, ((sample_triangles_payloads_independently_mutable demoSampler [()] 7
    demoSampled (by rfl) 0 99).2 ⟨1, by decide⟩ (by decide)).1⟩

/-- C5: whenever the external Poisson-disk sampler meets its contract for
`MinimumDistance(r)` with `r > 0` — the points it returns are pairwise at
Euclidean distance at least `r` (stated squared over the exact rational
model: squared distance at least `r·r`) — the samples `sample_triangles`
appends are pairwise at distance at least `r` as well, because the Surfel
wrapping preserves each returned point's position. -/
theorem sample_triangles_min_distance_pairwise_far
    {V D T : Type} [Position V] (sampler : List T → Fl → List V)
    (b b2 : SurfaceBuilder (Surfel V D)) (ts : List T) (proto : D) (r : ℚ)
    (_hr : 0 < r)
    (hs : b.sampling = SurfelSampling.MinimumDistance (Fl.fin r))
    (hok : SurfaceBuilder.sample_triangles sampler b ts proto = Except.ok b2)
    (hcontract : PairwiseFar r
      ((sampler ts (Fl.fin r)).map Position.position)) :
    (b2.samples.drop b.samples.length).map Position.position =
      (sampler ts (Fl.fin r)).map Position.position ∧
    PairwiseFar r ((b2.samples.drop b.samples.length).map Position.position) := by
  rw [sample_triangles_min_dist_eq sampler b ts proto (Fl.fin r) hs] at hok
  injection hok with hb2
  rw [← hb2]
  constructor
  · show ((b.samples ++
        (sampler ts (Fl.fin r)).map (fun v => Surfel.new v proto)).drop
          b.samples.length).map Position.position = _
    rw [List.drop_left, List.map_map]
    rfl
  · show PairwiseFar r (((b.samples ++
        (sampler ts (Fl.fin r)).map (fun v => Surfel.new v proto)).drop
          b.samples.length).map Position.position)
    rw [List.drop_left, List.map_map]
    exact hcontract

/-- Witness for C5: the demo sampler's two points are 5 apart, and so are
the two appended samples. -/
theorem sample_triangles_min_distance_pairwise_far_witness :
    (0 : ℚ) < 1 ∧
    demoBuilderMD.sampling = SurfelSampling.MinimumDistance (Fl.fin 1) ∧
    SurfaceBuilder.sample_triangles demoSampler demoBuilderMD [()] (7 : Int) =
      Except.ok demoSampledMD ∧
    PairwiseFar 1 ((demoSampler [()] (Fl.fin 1)).map Position.position) ∧
    PairwiseFar 1
      ((demoSampledMD.samples.drop demoBuilderMD.samples.length).map
        Position.position) := by
  have hfar : PairwiseFar 1 ((demoSampler [()] (Fl.fin 1)).map Position.position) := by
    show PairwiseFar 1 [p0, p1]
    intro i j hne
    fin_cases i <;> fin_cases j <;>
      norm_num [farApart, Vec3.dist2, p0, p1, Fl.toRat?] <;> simp_all
  exact ⟨by norm_num, rfl, by rfl, hfar,
    (sample_triangles_min_distance_pairwise_far demoSampler demoBuilderMD
      demoSampledMD [()] 7 1 (by norm_num) rfl (by rfl) hfar).2⟩
